import Mathlib

/-!
Shallow embedding of the face-attendance backend under `src/backend`:
the recognition engine of `recognition.py` and the embedding-mutating
HTTP handlers of `app.py` / `db.py`.

Modelling conventions:
* Python floats are idealised as real numbers; JSON numbers (the contents
  of stored embedding vectors) as rationals.
* The external vision/inference capabilities (OpenCV image decode and
  crop/resize, the ONNX model run, the Haar-cascade detector) are opaque
  function parameters, matching the spec, which treats them as external
  contracts.
* `json.loads` is an opaque decoder parameter returning `Option PyVal`
  (`none` models a raised exception); the spec declares the encoding
  opaque to the engine.
-/

namespace FaceAttendance

/-- A detection box: the dict with keys x, y, w, h built in detection.py
line 36. -/
structure Box where
  x : Int
  y : Int
  w : Int
  h : Int
deriving DecidableEq

/-- A parsed JSON value as produced by json.loads, with enough structure
for the vectors stored in the embeddings table: numbers, strings and
(possibly nested or heterogeneous) lists. -/
inductive PyVal where
  | num : ℚ → PyVal
  | str : String → PyVal
  | list : List PyVal → PyVal

/-- Python truthiness of a value: 0, the empty string and the empty list
are falsy. -/
def pyTruthy : PyVal → Bool
  | .num q => !(q == 0)
  | .str s => !(s == "")
  | .list l => !l.isEmpty

/-- Truthiness of `data.get(...)`: absent keys give None, which is falsy. -/
def pyTruthyOpt : Option PyVal → Bool
  | none => false
  | some v => pyTruthy v

/-- Truthiness of best_id in `if best_id and best_score >= threshold`
(recognition.py line 144): None and the empty string are falsy. -/
def truthyId : Option String → Bool
  | none => false
  | some s => !(s == "")

/-- A single numeric JSON element. -/
def toNum? : PyVal → Option ℚ
  | .num q => some q
  | _ => none

/-- np.array(vec, dtype="float32") as used at recognition.py line 135:
it yields a usable 1-D float vector exactly when vec is a flat list of
numbers; anything else (string content, nested lists, bare scalars) is
treated as failing the try block around the scan step. -/
def toFloatVec : PyVal → Option (List ℚ)
  | .list vs => vs.mapM toNum?
  | _ => none

/-- The 1e-8 stabiliser added to the norm product in _cosine
(recognition.py line 93). -/
noncomputable def eps : ℝ := 1 / 10 ^ 8

/-- np.dot on 1-D float arrays; the engine only applies it to vectors of
equal, checked length (a genuine length mismatch raises in numpy and is
modelled by the length guard in `entryScore`). -/
def dot : List ℚ → List ℚ → ℚ
  | a :: as, b :: bs => a * b + dot as bs
  | _, _ => 0

/-- np.linalg.norm: the square root of the sum of squares. -/
noncomputable def pyNorm (a : List ℚ) : ℝ :=
  Real.sqrt ((dot a a : ℚ) : ℝ)

/-- Recognizer._cosine (recognition.py lines 90-94):
dot(a,b) / (norm(a)*norm(b) + 1e-8).  The `np is None` early return is
unreachable on the paths that call it (guarded at lines 107 and 129). -/
noncomputable def cosine (a b : List ℚ) : ℝ :=
  ((dot a b : ℚ) : ℝ) / (pyNorm a * pyNorm b + eps)

open Classical in
/-- Python round of the idealised real: nearest integer, ties to even. -/
noncomputable def pyRound (x : ℝ) : ℤ :=
  if Int.fract x = 1 / 2 then (if 2 ∣ ⌊x⌋ then ⌊x⌋ else ⌊x⌋ + 1) else round x

/-- round(x, 4) at recognition.py line 151. -/
noncomputable def round4 (x : ℝ) : ℝ :=
  (pyRound (x * 10 ^ 4) : ℝ) / 10 ^ 4

/-- The body of the try at recognition.py lines 134-136: decode the stored
vector with np.array and score it against the query embedding; `none`
models the caught exception (non-numeric content or a dimensionality
mismatch that makes np.dot raise). -/
noncomputable def entryScore (emb : List ℚ) (v : PyVal) : Option ℝ :=
  match toFloatVec v with
  | none => none
  | some vec => if vec.length = emb.length then some (cosine emb vec) else none

open Classical in
/-- The scan loop of recognition.py lines 133-141 with its running
(best_id, best_score) accumulator: a failing entry leaves the accumulator
unchanged (`continue`), a scored entry updates the strict running maximum. -/
noncomputable def scanLoop (emb : List ℚ) :
    List (String × PyVal) → Option String × ℝ → Option String × ℝ
  | [], acc => acc
  | e :: rest, acc =>
      scanLoop emb rest
        (match entryScore emb e.2 with
          | none => acc
          | some score => if score > acc.2 then (some e.1, score) else acc)

/-- The full gallery scan, started from best_id = None, best_score = -1.0
(recognition.py lines 131-132). -/
noncomputable def bestMatch (emb : List ℚ) (g : List (String × PyVal)) :
    Option String × ℝ :=
  scanLoop emb g (none, -1)

/-- One element of the faces list returned by recognize. -/
structure Face where
  box : Box
  studentId : Option String
  studentName : Option String
  confidence : ℝ
  status : String

open Classical in
/-- The per-face decision and record construction of recognition.py lines
142-154: threshold the best score, null the identity when not recognized,
clamp a negative best score to 0 and round a nonnegative one to 4 decimal
places; student_name is assigned None at line 143 and never reassigned. -/
noncomputable def mkFace (g : List (String × PyVal)) (threshold : ℝ)
    (b : Box) (emb : List ℚ) : Face :=
  let r := bestMatch emb g
  let status := if truthyId r.1 ∧ r.2 ≥ threshold then "recognized" else "unknown"
  { box := b
    studentId := if status = "recognized" then r.1 else none
    studentName := none
    confidence := if r.2 ≥ 0 then round4 r.2 else 0
    status := status }

/-- The external vision and inference capabilities consumed by the engine:
the Haar-cascade detector, cv2 image decoding, the crop/resize/normalise
pipeline of _preprocess, and the ONNX session run of _embed. -/
structure Externals (Img Tensor Session : Type) where
  detect : String → List Box
  decodeImage : String → Option Img
  crop : Img → Box → Option Tensor
  run : Session → Tensor → Option (List ℚ)

/-- The mutable recognizer fields read by recognize: self.available,
self.session and the in-memory gallery cache self.embeddings. -/
structure RecognizerState (Session : Type) where
  available : Bool
  session : Option Session
  embeddings : List (String × PyVal)

variable {Img Tensor Session : Type}

/-- Recognizer._preprocess (recognition.py lines 69-80): None when the
frame is None; the cv2 crop/resize/normalise pipeline is the external
crop capability, returning None on a degenerate crop. -/
def preprocessM (E : Externals Img Tensor Session) (frame : Option Img)
    (b : Box) : Option Tensor :=
  match frame with
  | none => none
  | some f => E.crop f b

/-- Recognizer._embed (recognition.py lines 82-88): None when the session
is None, otherwise the external model run. -/
def embedM (E : Externals Img Tensor Session) (sess : Option Session)
    (t : Tensor) : Option (List ℚ) :=
  match sess with
  | none => none
  | some s => E.run s t

/-- The per-box loop of recognition.py lines 123-154: a box whose
preprocessing yields None, whose embedding yields None, or hit while the
numpy module is absent, is skipped (`continue`); otherwise its face record
is appended. -/
noncomputable def facesLoop (E : Externals Img Tensor Session) (npAvail : Bool)
    (frame : Option Img) (sess : Option Session) (g : List (String × PyVal))
    (threshold : ℝ) : List Box → List Face
  | [] => []
  | b :: rest =>
      match preprocessM E frame b with
      | none => facesLoop E npAvail frame sess g threshold rest
      | some t =>
          match embedM E sess t, npAvail with
          | none, _ => facesLoop E npAvail frame sess g threshold rest
          | some _, false => facesLoop E npAvail frame sess g threshold rest
          | some emb, true =>
              mkFace g threshold b emb :: facesLoop E npAvail frame sess g threshold rest

/-- The structured response of recognize. -/
structure RecResult where
  available : Bool
  message : String
  faces : List Face

/-- A detection-only face record (recognition.py lines 112-118). -/
def detOnlyFace (b : Box) : Face :=
  { box := b, studentId := none, studentName := none, confidence := 0, status := "unknown" }

/-- Recognizer.recognize (recognition.py lines 96-160).  detAvail is
detector.available, npAvail is whether numpy imported; the three regimes
are: detector unavailable, detection-only (self.available false, session
None or empty gallery), and full recognition. -/
noncomputable def recognize (E : Externals Img Tensor Session)
    (detAvail npAvail : Bool) (st : RecognizerState Session)
    (frameB64 : String) (threshold : ℝ) : RecResult :=
  if !detAvail then
    { available := false
      message := "OpenCV not installed; detection unavailable."
      faces := [] }
  else
    let boxes := E.detect frameB64
    let frame := if st.available then E.decodeImage frameB64 else none
    if !st.available || st.session.isNone || st.embeddings.isEmpty then
      { available := detAvail
        message := "Detection only. Add model + embeddings to enable recognition."
        faces := boxes.map detOnlyFace }
    else
      let fs := facesLoop E npAvail frame st.session st.embeddings threshold boxes
      { available := true
        message := if fs.isEmpty then "No faces" else "Recognition executed"
        faces := fs }

/-- Recognizer._load_embeddings (recognition.py lines 32-40): iterate the
fetched rows in order, json.loads each stored value, and drop (continue
past) any entry whose decode raises.  jl is the opaque json.loads. -/
def loadEmbeddings (jl : String → Option PyVal) :
    List (String × String) → List (String × PyVal)
  | [] => []
  | (k, v) :: rest =>
      match jl v with
      | none => loadEmbeddings jl rest
      | some p => (k, p) :: loadEmbeddings jl rest

/-- An entry the scan can actually score against emb: it decodes to a flat
numeric vector of matching dimensionality. -/
def wellFormedFor (emb : List ℚ) (v : PyVal) : Bool :=
  match toFloatVec v with
  | none => false
  | some vec => vec.length == emb.length

/-! The Flask application state touched by the embedding-bearing mutations
of app.py: the students table (by id), the embeddings table (studentId to
stored JSON text), and the recognizer's in-memory gallery cache. -/

structure AppState where
  students : List String
  dbEmbeddings : List (String × String)
  cache : List (String × PyVal)

/-- The observable outcome of one handler call: HTTP status, resulting
application state, and whether recognizer.reload_embeddings() ran. -/
structure HandlerOut where
  status : Nat
  state : AppState
  reloadInvoked : Bool

/-- json.dumps as referenced by app.py.  app.py imports datetime, os, uuid,
flask, flask_cors, db and detection but never the json module, so the
expressions json.dumps(...) at app.py lines 67 and 129 raise NameError
when evaluated; this Except value models that raise. -/
def appJsonDumps : PyVal → Except String String :=
  fun _ => .error "NameError: name json is not defined"

/-- db.upsert_embedding (db.py lines 214-224): INSERT ... ON CONFLICT
(studentId) DO UPDATE, i.e. replace the row with this key or append it. -/
def upsertEmbeddingDb (db : List (String × String)) (sid enc : String) :
    List (String × String) :=
  if db.any (fun e => e.1 == sid) then
    db.map (fun e => if e.1 == sid then (sid, enc) else e)
  else
    db ++ [(sid, enc)]

/-- db.delete_embedding (db.py lines 227-230). -/
def deleteEmbeddingDb (db : List (String × String)) (sid : String) :
    List (String × String) :=
  db.filter (fun e => e.1 != sid)

/-- app.add_student (app.py lines 44-71), restricted to the fields the
embedding flow reads.  The student row is inserted; then, when a truthy
embedding is supplied, the handler runs json.dumps + upsert_embedding +
reload_embeddings inside a try whose except swallows the failure (printing
it) and still returns 201.  genId models str(uuid.uuid4()); the photo
side-channel (save_face_image) does not touch embeddings and is omitted. -/
def add_student (jl : String → Option PyVal) (genId : String) (st : AppState)
    (dataId : Option String) (embedding : Option PyVal) : HandlerOut :=
  let sid := match dataId with
    | some s => if s == "" then genId else s
    | none => genId
  let st1 : AppState := { st with students := st.students ++ [sid] }
  match embedding with
  | some v =>
      if pyTruthy v then
        match appJsonDumps v with
        | .error _ => { status := 201, state := st1, reloadInvoked := false }
        | .ok enc =>
            let st2 : AppState :=
              { st1 with dbEmbeddings := upsertEmbeddingDb st1.dbEmbeddings sid enc }
            let st3 : AppState := { st2 with cache := loadEmbeddings jl st2.dbEmbeddings }
            { status := 201, state := st3, reloadInvoked := true }
      else { status := 201, state := st1, reloadInvoked := false }
  | none => { status := 201, state := st1, reloadInvoked := false }

/-- app.put_embedding (app.py lines 121-133): 400 when studentId is falsy
or vector is None; otherwise json.dumps + upsert_embedding +
reload_embeddings inside a try whose except returns 500. -/
def put_embedding (jl : String → Option PyVal) (st : AppState)
    (studentId : Option String) (vector : Option PyVal) : HandlerOut :=
  match studentId, vector with
  | some sid, some v =>
      if sid == "" then { status := 400, state := st, reloadInvoked := false }
      else
        match appJsonDumps v with
        | .error _ => { status := 500, state := st, reloadInvoked := false }
        | .ok enc =>
            let st1 : AppState :=
              { st with dbEmbeddings := upsertEmbeddingDb st.dbEmbeddings sid enc }
            let st2 : AppState := { st1 with cache := loadEmbeddings jl st1.dbEmbeddings }
            { status := 200, state := st2, reloadInvoked := true }
  | _, _ => { status := 400, state := st, reloadInvoked := false }

/-- app.delete_student_api (app.py lines 74-81): delete the student row,
delete the embedding row, reload the gallery cache, then 404 when no
student row was removed and 200 otherwise. -/
def delete_student_api (jl : String → Option PyVal) (st : AppState)
    (sid : String) : HandlerOut :=
  let removed := st.students.contains sid
  let st1 : AppState := { st with students := st.students.filter (fun s => s != sid) }
  let st2 : AppState := { st1 with dbEmbeddings := deleteEmbeddingDb st1.dbEmbeddings sid }
  let st3 : AppState := { st2 with cache := loadEmbeddings jl st2.dbEmbeddings }
  if removed then { status := 200, state := st3, reloadInvoked := true }
  else { status := 404, state := st3, reloadInvoked := true }

/-! Helper lemmas. -/

lemma dot_comm : ∀ a b : List ℚ, dot a b = dot b a
  | [], [] => rfl
  | [], _ :: _ => rfl
  | _ :: _, [] => rfl
  | x :: xs, y :: ys => by
      simp only [dot]
      rw [mul_comm, dot_comm xs ys]

lemma scanLoop_nil (emb : List ℚ) (acc : Option String × ℝ) :
    scanLoop emb [] acc = acc := rfl

lemma scanLoop_cons (emb : List ℚ) (e : String × PyVal)
    (rest : List (String × PyVal)) (acc : Option String × ℝ) :
    scanLoop emb (e :: rest) acc =
      scanLoop emb rest
        (match entryScore emb e.2 with
          | none => acc
          | some score => if score > acc.2 then (some e.1, score) else acc) := rfl

lemma entryScore_eq_none (emb : List ℚ) (v : PyVal)
    (h : wellFormedFor emb v = false) : entryScore emb v = none := by
  unfold entryScore
  unfold wellFormedFor at h
  cases hv : toFloatVec v with
  | none => rfl
  | some vec =>
      rw [hv] at h
      simp only [beq_eq_false_iff_ne, ne_eq] at h
      simp [h]

lemma scanLoop_filter_wellFormed (emb : List ℚ) :
    ∀ (g : List (String × PyVal)) (acc : Option String × ℝ),
      scanLoop emb g acc =
        scanLoop emb (g.filter fun e => wellFormedFor emb e.2) acc
  | [], _ => rfl
  | e :: rest, acc => by
      rw [scanLoop_cons, List.filter_cons]
      cases h : wellFormedFor emb e.2 with
      | true =>
          simp only [h, if_true]
          rw [scanLoop_cons]
          exact scanLoop_filter_wellFormed emb rest _
      | false =>
          simp only [h, Bool.false_eq_true, if_false]
          rw [entryScore_eq_none emb e.2 h]
          exact scanLoop_filter_wellFormed emb rest acc

lemma lookup_loadEmbeddings_of_not_mem (jl : String → Option PyVal) {k : String} :
    ∀ {raw : List (String × String)}, k ∉ raw.map Prod.fst →
      (loadEmbeddings jl raw).lookup k = none
  | [], _ => rfl
  | (k', v) :: rest, h => by
      simp only [List.map_cons, List.mem_cons, not_or] at h
      unfold loadEmbeddings
      cases jl v with
      | none => exact lookup_loadEmbeddings_of_not_mem jl h.2
      | some p =>
          have hbeq : (k == k') = false := beq_eq_false_iff_ne.mpr h.1
          simp only [List.lookup, hbeq]
          exact lookup_loadEmbeddings_of_not_mem jl h.2

lemma lookup_loadEmbeddings (jl : String → Option PyVal) :
    ∀ (raw : List (String × String)), (raw.map Prod.fst).Nodup →
      ∀ k, (loadEmbeddings jl raw).lookup k = (raw.lookup k).bind jl
  | [], _, _ => rfl
  | (k', v) :: rest, hnd, k => by
      simp only [List.map_cons, List.nodup_cons] at hnd
      unfold loadEmbeddings
      by_cases hk : k = k'
      · subst hk
        have hbeq : (k == k) = true := beq_self_eq_true k
        cases hjv : jl v with
        | none =>
            rw [lookup_loadEmbeddings_of_not_mem jl hnd.1]
            simp only [List.lookup, hbeq, Option.some_bind, hjv]
        | some p =>
            simp only [List.lookup, hbeq, Option.some_bind, hjv]
      · have hbeq : (k == k') = false := beq_eq_false_iff_ne.mpr hk
        cases hjv : jl v with
        | none =>
            rw [lookup_loadEmbeddings jl rest hnd.2 k]
            simp only [List.lookup, hbeq]
        | some p =>
            simp only [List.lookup, hbeq]
            exact lookup_loadEmbeddings jl rest hnd.2 k

/-! Claim theorems. -/

/-- C1: the spec requires every embedding-bearing mutation (enrollment with
an inline embedding, explicit embedding upsert, identity deletion) to
persist the embedding and then invoke reload_embeddings synchronously.
The code cannot do this for the first two: app.py never imports the json
module, so json.dumps raises NameError.  put_embedding catches it and
returns 500 with nothing persisted and no reload; add_student swallows it
(against its own comment at app.py line 64, which says the embedding is to
be persisted) and returns 201 with nothing persisted and no reload.  This
theorem evaluates both handlers at valid inputs. -/
theorem put_and_post_embedding_never_persist_or_reload :
    (∀ jl : String → Option PyVal,
      let st0 : AppState := { students := ["s1"], dbEmbeddings := [], cache := [] }
      let r1 := put_embedding jl st0 (some "s1") (some (.list [.num 1]))
      let r2 := add_student jl "generated-id" st0 (some "s2") (some (.list [.num 1]))
      (r1.status = 500 ∧ r1.state.dbEmbeddings = [] ∧ r1.reloadInvoked = false) ∧
      (r2.status = 201 ∧ r2.state.dbEmbeddings = [] ∧ r2.reloadInvoked = false)) :=
  fun _ => ⟨⟨rfl, rfl, rfl⟩, ⟨rfl, rfl, rfl⟩⟩

/-- C6: malformed gallery entries never abort processing: during reload an
undecodable stored entry is dropped while every decodable entry is loaded
with its decoded value (stated as a lookup characterisation over stores
with unique keys, as the embeddings table keys on studentId), and the
matching scan over a gallery equals the scan over just its well-formed
entries, so mismatched-dimensionality or non-numeric entries are skipped
and the scan continues. -/
theorem malformed_entries_dropped_and_skipped
    (jl : String → Option PyVal) (raw : List (String × String))
    (hnd : (raw.map Prod.fst).Nodup) (k : String)
    (emb : List ℚ) (g : List (String × PyVal)) :
    (loadEmbeddings jl raw).lookup k = (raw.lookup k).bind jl ∧
    bestMatch emb g = bestMatch emb (g.filter fun e => wellFormedFor emb e.2) :=
  ⟨lookup_loadEmbeddings jl raw hnd k, scanLoop_filter_wellFormed emb g _⟩

/-- A concrete json.loads used by witnesses: decodes the text "ok" and
nothing else. -/
def jlW : String → Option PyVal :=
  fun s => if s == "ok" then some (.list [.num 1]) else none

theorem malformed_entries_dropped_and_skipped_witness :
    (([("alice", "ok"), ("bob", "bad")].map Prod.fst).Nodup ∧
      ((loadEmbeddings jlW [("alice", "ok"), ("bob", "bad")]).lookup "bob" =
        (([("alice", "ok"), ("bob", "bad")] : List (String × String)).lookup "bob").bind jlW ∧
       bestMatch [1] [("carol", .str "oops")] =
        bestMatch [1] (([("carol", .str "oops")].filter fun e => wellFormedFor [1] e.2)))) :=
  ⟨by decide,
    malformed_entries_dropped_and_skipped jlW [("alice", "ok"), ("bob", "bad")]
      (by decide) "bob" [1] [("carol", .str "oops")]⟩

/-- C8: the cosine similarity score is symmetric for equal-dimension
vectors: the dot product is commutative and the norm product commutes. -/
theorem cosine_symm (a b : List ℚ) (_h : a.length = b.length) :
    cosine a b = cosine b a := by
  unfold cosine
  rw [dot_comm a b, mul_comm (pyNorm a) (pyNorm b)]

theorem cosine_symm_witness :
    ([(1 : ℚ), 2].length = [(3 : ℚ), 4].length) ∧
    cosine [1, 2] [3, 4] = cosine [3, 4] [1, 2] :=
  ⟨rfl, cosine_symm [1, 2] [3, 4] rfl⟩

/-! Concrete data shared by counterexamples and witnesses. -/

def B0 : Box := { x := 0, y := 0, w := 10, h := 10 }

def E0 : Externals Unit Unit Unit :=
  { detect := fun _ => [B0]
    decodeImage := fun _ => none
    crop := fun _ _ => none
    run := fun _ _ => none }

def stNoModel : RecognizerState Unit :=
  { available := true, session := none, embeddings := [("s1", .list [.num 1])] }

def stNoGallery : RecognizerState Unit :=
  { available := true, session := some (), embeddings := [] }

/-! More helper lemmas: which faces a recognize call can return. -/

lemma bestMatch_nil (emb : List ℚ) : bestMatch emb [] = (none, -1) := rfl

lemma truthyId_ne_none {o : Option String} (h : truthyId o = true) : o ≠ none := by
  cases o with
  | none => simp [truthyId] at h
  | some s => simp

lemma mem_facesLoop {E : Externals Img Tensor Session} {npAvail : Bool}
    {frame : Option Img} {sess : Option Session} {g : List (String × PyVal)}
    {threshold : ℝ} {f : Face} :
    ∀ {bs : List Box}, f ∈ facesLoop E npAvail frame sess g threshold bs →
      ∃ b emb, f = mkFace g threshold b emb
  | [], h => absurd h (List.not_mem_nil f)
  | b :: rest, h => by
      rw [facesLoop] at h
      cases hp : preprocessM E frame b with
      | none =>
          rw [hp] at h
          exact mem_facesLoop h
      | some t =>
          simp only [hp] at h
          cases he : embedM E sess t with
          | none =>
              simp only [he] at h
              exact mem_facesLoop h
          | some emb =>
              simp only [he] at h
              cases npAvail with
              | false => exact mem_facesLoop h
              | true =>
                  rcases List.mem_cons.mp h with h | h
                  · exact ⟨b, emb, h⟩
                  · exact mem_facesLoop h

lemma recognize_faces_cases (E : Externals Img Tensor Session)
    (detAvail npAvail : Bool) (st : RecognizerState Session)
    (frameB64 : String) (threshold : ℝ) {f : Face}
    (hf : f ∈ (recognize E detAvail npAvail st frameB64 threshold).faces) :
    (∃ b, f = detOnlyFace b) ∨
      ∃ b emb, f = mkFace st.embeddings threshold b emb := by
  unfold recognize at hf
  cases detAvail with
  | false => simp at hf
  | true =>
      simp only [Bool.not_true, Bool.false_eq_true, if_false] at hf
      by_cases hc : (!st.available || st.session.isNone || st.embeddings.isEmpty) = true
      · simp only [hc, if_true] at hf
        rcases List.mem_map.mp hf with ⟨b, -, rfl⟩
        exact Or.inl ⟨b, rfl⟩
      · simp only [Bool.not_eq_true] at hc
        simp only [hc, Bool.false_eq_true, if_false] at hf
        exact Or.inr (mem_facesLoop hf)

lemma mkFace_studentId_iff (g : List (String × PyVal)) (threshold : ℝ)
    (b : Box) (emb : List ℚ) :
    ((mkFace g threshold b emb).studentId ≠ none ↔
      (mkFace g threshold b emb).status = "recognized") := by
  simp only [mkFace]
  by_cases hc : truthyId (bestMatch emb g).1 ∧ (bestMatch emb g).2 ≥ threshold
  · simp only [if_pos hc]
    simp [truthyId_ne_none hc.1]
  · simp [if_neg hc]

/-- C2 counterexample: the claim requires a message that distinguishes the
no-model case from the no-gallery-entries case, but recognize returns the
same fixed message in both.  With the detector available, a state with no
session and a non-empty gallery and a state with a session and an empty
gallery answer identically. -/
theorem detection_only_message_not_distinguishing :
    (recognize E0 true true stNoModel "frame" ((85 : ℝ) / 100)).message =
      (recognize E0 true true stNoGallery "frame" ((85 : ℝ) / 100)).message ∧
    (recognize E0 true true stNoModel "frame" ((85 : ℝ) / 100)).message =
      "Detection only. Add model + embeddings to enable recognition." :=
  ⟨rfl, rfl⟩

/-- C2 (amended): when the detector is available and the model session is
absent or the gallery cache is empty, recognize returns one face per
detected box, each with null studentId and studentName, confidence 0 and
status "unknown", together with the fixed message
"Detection only. Add model + embeddings to enable recognition." — the same
message in the no-model and the no-gallery-entries case, so the two cases
are not distinguished by it. -/
theorem detection_only_regime_output (E : Externals Img Tensor Session)
    (npAvail : Bool) (st : RecognizerState Session) (frameB64 : String)
    (threshold : ℝ) (h : st.session = none ∨ st.embeddings = []) :
    (recognize E true npAvail st frameB64 threshold).message =
      "Detection only. Add model + embeddings to enable recognition." ∧
    (recognize E true npAvail st frameB64 threshold).faces =
      (E.detect frameB64).map (fun bx =>
        { box := bx, studentId := none, studentName := none,
          confidence := 0, status := "unknown" }) := by
  have hc : (!st.available || st.session.isNone || st.embeddings.isEmpty) = true := by
    rcases h with h | h <;> simp [h]
  unfold recognize
  simp [hc, detOnlyFace]

theorem detection_only_regime_output_witness :
    (stNoModel.session = none ∨ stNoModel.embeddings = []) ∧
    ((recognize E0 true true stNoModel "frame" ((85 : ℝ) / 100)).message =
        "Detection only. Add model + embeddings to enable recognition." ∧
     (recognize E0 true true stNoModel "frame" ((85 : ℝ) / 100)).faces =
        (E0.detect "frame").map (fun bx =>
          { box := bx, studentId := none, studentName := none,
            confidence := 0, status := "unknown" })) :=
  ⟨Or.inl rfl,
    detection_only_regime_output E0 true stNoModel "frame" ((85 : ℝ) / 100) (Or.inl rfl)⟩

/-- C5: recognize with an empty gallery cache is total (never an error) and
every face it returns has status "unknown", null studentId and confidence
0, for every frame, threshold and availability combination. -/
theorem empty_gallery_always_unknown (E : Externals Img Tensor Session)
    (detAvail npAvail : Bool) (st : RecognizerState Session)
    (frameB64 : String) (threshold : ℝ) (hg : st.embeddings = [])
    (f : Face) (hf : f ∈ (recognize E detAvail npAvail st frameB64 threshold).faces) :
    f.status = "unknown" ∧ f.studentId = none ∧ f.confidence = 0 := by
  rcases recognize_faces_cases E detAvail npAvail st frameB64 threshold hf with
    ⟨b, rfl⟩ | ⟨b, emb, rfl⟩
  · exact ⟨rfl, rfl, rfl⟩
  · rw [hg]
    refine ⟨?_, ?_, ?_⟩ <;>
      norm_num [mkFace, bestMatch_nil, truthyId]

lemma memEmptyGallery :
    detOnlyFace B0 ∈ (recognize E0 true true stNoGallery "f2" ((85 : ℝ) / 100)).faces := by
  show detOnlyFace B0 ∈ [detOnlyFace B0]
  exact List.mem_singleton.mpr rfl

theorem empty_gallery_always_unknown_witness :
    (stNoGallery.embeddings = []) ∧
    (detOnlyFace B0 ∈ (recognize E0 true true stNoGallery "f2" ((85 : ℝ) / 100)).faces) ∧
    ((detOnlyFace B0).status = "unknown" ∧ (detOnlyFace B0).studentId = none ∧
      (detOnlyFace B0).confidence = 0) :=
  ⟨rfl, memEmptyGallery,
    empty_gallery_always_unknown E0 true true stNoGallery "f2" ((85 : ℝ) / 100) rfl
      (detOnlyFace B0) memEmptyGallery⟩

/-- C7: in the full-recognition per-box loop, a box whose preprocessing or
embedding fails contributes no entry at all to the faces list (not a
zero-confidence one), and the results for the other boxes of the same
request are unaffected: the loop on a box list containing the failing box
equals the loop on the list without it. -/
theorem failed_box_contributes_no_entry (E : Externals Img Tensor Session)
    (frame : Option Img) (sess : Option Session) (g : List (String × PyVal))
    (threshold : ℝ) (bs1 bs2 : List Box) (b : Box)
    (hfail : (preprocessM E frame b).bind (embedM E sess) = none) :
    facesLoop E true frame sess g threshold (bs1 ++ b :: bs2) =
      facesLoop E true frame sess g threshold (bs1 ++ bs2) := by
  induction bs1 with
  | nil =>
      simp only [List.nil_append]
      rw [facesLoop]
      cases hp : preprocessM E frame b with
      | none => simp [hp]
      | some t =>
          rw [hp] at hfail
          simp only [Option.some_bind] at hfail
          simp [hp, hfail]
  | cons b' rest ih =>
      simp only [List.cons_append]
      rw [facesLoop]
      conv_rhs => rw [facesLoop]
      cases hp' : preprocessM E frame b' with
      | none => simp [hp', ih]
      | some t' =>
          cases he' : embedM E sess t' with
          | none => simp [hp', he', ih]
          | some emb' => simp [hp', he', ih]

def E7 : Externals Unit Unit Unit :=
  { detect := fun _ => [B0]
    decodeImage := fun _ => some ()
    crop := fun _ _ => some ()
    run := fun _ _ => none }

theorem failed_box_contributes_no_entry_witness :
    ((preprocessM E7 (some ()) B0).bind (embedM E7 (some ())) = none) ∧
    facesLoop E7 true (some ()) (some ()) [("s1", .list [.num 1])] ((85 : ℝ) / 100)
        ([] ++ B0 :: []) =
      facesLoop E7 true (some ()) (some ()) [("s1", .list [.num 1])] ((85 : ℝ) / 100)
        ([] ++ []) :=
  ⟨rfl,
    failed_box_contributes_no_entry E7 (some ()) (some ())
      [("s1", .list [.num 1])] ((85 : ℝ) / 100) [] [] B0 rfl⟩

/-- C9: for every face returned by recognize, the studentId is non-null
exactly when the status is "recognized"; unknown faces always carry a null
studentId. -/
theorem studentId_nonnull_iff_recognized (E : Externals Img Tensor Session)
    (detAvail npAvail : Bool) (st : RecognizerState Session)
    (frameB64 : String) (threshold : ℝ) (f : Face)
    (hf : f ∈ (recognize E detAvail npAvail st frameB64 threshold).faces) :
    (f.studentId ≠ none ↔ f.status = "recognized") := by
  rcases recognize_faces_cases E detAvail npAvail st frameB64 threshold hf with
    ⟨b, rfl⟩ | ⟨b, emb, rfl⟩
  · simp [detOnlyFace]
  · exact mkFace_studentId_iff st.embeddings threshold b emb

lemma memNoModel :
    detOnlyFace B0 ∈ (recognize E0 true true stNoModel "frame" ((85 : ℝ) / 100)).faces := by
  show detOnlyFace B0 ∈ [detOnlyFace B0]
  exact List.mem_singleton.mpr rfl

theorem studentId_nonnull_iff_recognized_witness :
    (detOnlyFace B0 ∈ (recognize E0 true true stNoModel "frame" ((85 : ℝ) / 100)).faces) ∧
    ((detOnlyFace B0).studentId ≠ none ↔ (detOnlyFace B0).status = "recognized") :=
  ⟨memNoModel,
    studentId_nonnull_iff_recognized E0 true true stNoModel "frame" ((85 : ℝ) / 100)
      (detOnlyFace B0) memNoModel⟩

/-- C10: every face returned by recognize carries a null studentName in
every regime, recognized faces included: recognition.py line 143 assigns
student_name = None and it is never reassigned. -/
theorem studentName_always_none (E : Externals Img Tensor Session)
    (detAvail npAvail : Bool) (st : RecognizerState Session)
    (frameB64 : String) (threshold : ℝ) (f : Face)
    (hf : f ∈ (recognize E detAvail npAvail st frameB64 threshold).faces) :
    f.studentName = none := by
  rcases recognize_faces_cases E detAvail npAvail st frameB64 threshold hf with
    ⟨b, rfl⟩ | ⟨b, emb, rfl⟩
  · rfl
  · rfl

lemma memNoGallery :
    detOnlyFace B0 ∈ (recognize E0 true true stNoGallery "frame" ((85 : ℝ) / 100)).faces := by
  show detOnlyFace B0 ∈ [detOnlyFace B0]
  exact List.mem_singleton.mpr rfl

theorem studentName_always_none_witness :
    (detOnlyFace B0 ∈ (recognize E0 true true stNoGallery "frame" ((85 : ℝ) / 100)).faces) ∧
    (detOnlyFace B0).studentName = none :=
  ⟨memNoGallery,
    studentName_always_none E0 true true stNoGallery "frame" ((85 : ℝ) / 100)
      (detOnlyFace B0) memNoGallery⟩

/-! Concrete galleries and score evaluations for the threshold claims. -/

def G3 : List (String × PyVal) := [("s1", .list [.num (-1)])]

def G4 : List (String × PyVal) := [("s1", .list [.num 1])]

lemma cos3 : cosine [1] [-1] = -(1 : ℝ) / (1 + 1 / 10 ^ 8) := by
  unfold cosine pyNorm eps
  norm_num [dot, Real.sqrt_one]

lemma cos4 : cosine [1] [1] = (1 : ℝ) / (1 + 1 / 10 ^ 8) := by
  unfold cosine pyNorm eps
  norm_num [dot, Real.sqrt_one]

lemma escore3 : entryScore [1] (PyVal.list [.num (-1)]) = some (cosine [1] [-1]) := rfl

lemma escore4 : entryScore [1] (PyVal.list [.num 1]) = some (cosine [1] [1]) := rfl

lemma bm3 : bestMatch [1] G3 = (some "s1", cosine [1] [-1]) := by
  have hgt : cosine [1] [-1] > -1 := by
    rw [cos3]; norm_num
  simp only [bestMatch, G3, scanLoop_cons, escore3]
  rw [if_pos hgt]
  rfl

lemma bm4 : bestMatch [1] G4 = (some "s1", cosine [1] [1]) := by
  have hgt : cosine [1] [1] > -1 := by
    rw [cos4]; norm_num
  simp only [bestMatch, G4, scanLoop_cons, escore4]
  rw [if_pos hgt]
  rfl

lemma bm3_snd : (bestMatch [1] G3).2 = -(1 : ℝ) / (1 + 1 / 10 ^ 8) := by
  simp only [bm3]
  rw [cos3]

lemma bm4_snd : (bestMatch [1] G4).2 = (1 : ℝ) / (1 + 1 / 10 ^ 8) := by
  simp only [bm4]
  rw [cos4]

/-- C3 counterexample: with the gallery holding only s1 with stored vector
[-1] and query embedding [1], the best (and only) score in the scan is
-1/(1+1e-8), which is negative; the face is reported "unknown" with
confidence 0, so the confidence does not equal the best score found in the
scan — a negative best score is not surfaced. -/
theorem negative_best_score_clamped :
    (bestMatch [1] G3).2 < 0 ∧
    (mkFace G3 ((85 : ℝ) / 100) B0 [1]).status = "unknown" ∧
    (mkFace G3 ((85 : ℝ) / 100) B0 [1]).confidence = 0 ∧
    (mkFace G3 ((85 : ℝ) / 100) B0 [1]).confidence ≠ (bestMatch [1] G3).2 := by
  have hneg : (bestMatch [1] G3).2 < 0 := by
    rw [bm3_snd]; norm_num
  have hcond : ¬(truthyId (bestMatch [1] G3).1 ∧ (bestMatch [1] G3).2 ≥ (85 : ℝ) / 100) := by
    rintro ⟨-, hge⟩
    rw [bm3_snd] at hge
    norm_num at hge
  have hconf : (mkFace G3 ((85 : ℝ) / 100) B0 [1]).confidence = 0 := by
    simp only [mkFace, if_neg (not_le.mpr hneg)]
  refine ⟨hneg, ?_, hconf, ?_⟩
  · simp only [mkFace, if_neg hcond]
  · rw [hconf, bm3_snd]
    norm_num

/-- C3 (amended): when the best cosine score over the gallery is below the
threshold, the face is reported with status "unknown" and null identity;
its confidence field equals the best score rounded to 4 decimal places
when that score is nonnegative, but is clamped to 0 when the best score is
negative (a negative best score is not surfaced). -/
theorem below_threshold_unknown_clamped_confidence
    (g : List (String × PyVal)) (threshold : ℝ) (b : Box) (emb : List ℚ)
    (h : (bestMatch emb g).2 < threshold) :
    (mkFace g threshold b emb).status = "unknown" ∧
    (mkFace g threshold b emb).studentId = none ∧
    (0 ≤ (bestMatch emb g).2 →
      (mkFace g threshold b emb).confidence = round4 (bestMatch emb g).2) ∧
    ((bestMatch emb g).2 < 0 → (mkFace g threshold b emb).confidence = 0) := by
  have hcond : ¬(truthyId (bestMatch emb g).1 ∧ (bestMatch emb g).2 ≥ threshold) := by
    rintro ⟨-, hge⟩
    exact absurd h (not_lt.mpr hge)
  refine ⟨?_, ?_, ?_, ?_⟩
  · simp only [mkFace, if_neg hcond]
  · simp only [mkFace, if_neg hcond]
    simp
  · intro hge
    simp only [mkFace, if_pos hge]
  · intro hneg
    simp only [mkFace, if_neg (not_le.mpr hneg)]

theorem below_threshold_unknown_clamped_confidence_witness :
    ((bestMatch [1] G3).2 < (85 : ℝ) / 100) ∧
    ((mkFace G3 ((85 : ℝ) / 100) B0 [1]).status = "unknown" ∧
     (mkFace G3 ((85 : ℝ) / 100) B0 [1]).studentId = none ∧
     (0 ≤ (bestMatch [1] G3).2 →
       (mkFace G3 ((85 : ℝ) / 100) B0 [1]).confidence = round4 (bestMatch [1] G3).2) ∧
     ((bestMatch [1] G3).2 < 0 →
       (mkFace G3 ((85 : ℝ) / 100) B0 [1]).confidence = 0)) :=
  ⟨by rw [bm3_snd]; norm_num,
    below_threshold_unknown_clamped_confidence G3 ((85 : ℝ) / 100) B0 [1]
      (by rw [bm3_snd]; norm_num)⟩

/-- C4: monotonicity of the match decision in the threshold: the gallery
scan and its resulting best identity and best score do not depend on the
threshold, so if the decision at the larger threshold t2 is "recognized",
the decision at any smaller threshold t1 is also "recognized" with the
same reported identity and the same reported score. -/
theorem match_threshold_monotone (g : List (String × PyVal)) (b : Box)
    (emb : List ℚ) (t1 t2 : ℝ) (hlt : t1 < t2)
    (h2 : (mkFace g t2 b emb).status = "recognized") :
    (mkFace g t1 b emb).status = "recognized" ∧
    (mkFace g t1 b emb).studentId = (mkFace g t2 b emb).studentId ∧
    (mkFace g t1 b emb).confidence = (mkFace g t2 b emb).confidence := by
  have hcond2 : truthyId (bestMatch emb g).1 ∧ (bestMatch emb g).2 ≥ t2 := by
    by_contra hc
    simp only [mkFace, if_neg hc] at h2
    exact absurd h2 (by decide)
  have hcond1 : truthyId (bestMatch emb g).1 ∧ (bestMatch emb g).2 ≥ t1 :=
    ⟨hcond2.1, le_trans (le_of_lt hlt) hcond2.2⟩
  refine ⟨?_, ?_, ?_⟩
  · simp only [mkFace, if_pos hcond1]
  · simp only [mkFace, if_pos hcond1, if_pos hcond2]
  · simp only [mkFace]

lemma status4 : (mkFace G4 ((1 : ℝ) / 2) B0 [1]).status = "recognized" := by
  have hcond : truthyId (bestMatch [1] G4).1 ∧ (bestMatch [1] G4).2 ≥ (1 : ℝ) / 2 := by
    constructor
    · simp [bm4, truthyId]
    · rw [bm4_snd]; norm_num
  simp only [mkFace, if_pos hcond]

theorem match_threshold_monotone_witness :
    ((1 : ℝ) / 4 < 1 / 2) ∧
    (mkFace G4 ((1 : ℝ) / 2) B0 [1]).status = "recognized" ∧
    ((mkFace G4 ((1 : ℝ) / 4) B0 [1]).status = "recognized" ∧
     (mkFace G4 ((1 : ℝ) / 4) B0 [1]).studentId =
       (mkFace G4 ((1 : ℝ) / 2) B0 [1]).studentId ∧
     (mkFace G4 ((1 : ℝ) / 4) B0 [1]).confidence =
       (mkFace G4 ((1 : ℝ) / 2) B0 [1]).confidence) :=
  ⟨by norm_num, status4,
    match_threshold_monotone G4 B0 [1] ((1 : ℝ) / 4) ((1 : ℝ) / 2) (by norm_num) status4⟩

end FaceAttendance
